import Mathlib

/-!
Verification of the opensolar investment/payback lifecycle engine
(`core/contract.go`) against its design document.

Modelling conventions:
* Go `float64` monetary amounts are modelled as `ℚ` (the claims under audit
  are algebraic, not about rounding).
* The Ledger Accessor (load/save of Project/Investor/Recipient/Entity by
  integer index) is an association-list keyed store threaded through every
  operation; `Save` is the store update and is recorded in the effect trace.
* External collaborators (the chain service, wallet, notifier, Munibond
  instrument functions) live outside this module; they are modelled as an
  oracle environment `ChainEnv`, and every outward-visible action (asset
  transfer, escrow transfer, notification, background-task spawn) is recorded
  in an effect trace, so that theorems can speak about what a call persisted
  or transferred.
* `go f(x)` (background task spawn) is recorded as a spawn effect; the claims
  about the spawned pipelines are settled against the pipeline bodies, which
  are modelled from the point at which their real-time poll loop has exited.
-/

namespace OpenSolar

/-- A Go `error` value: `none` is `nil`, `some msg` is a non-nil error. -/
abbrev Err := Option String

/-- `pkg/errors.Wrap`: wrapping a `nil` error yields `nil`. -/
def wrap (e : Err) (msg : String) : Err :=
  e.map (fun s => msg ++ ": " ++ s)

/-- `errors.New`. -/
def errNew (msg : String) : Err := some msg

/-- The fields of `core.Project` that `core/contract.go` reads or writes. -/
structure Project where
  Index : Nat
  Stage : Int
  TotalValue : ℚ
  MoneyRaised : ℚ
  SeedMoneyRaised : ℚ
  SeedInvestmentFactor : ℚ
  SeedInvestmentCap : ℚ
  InvestorIndices : List Nat
  InvestorMap : List (String × ℚ)
  WaterfallMap : List (String × ℚ)
  Lock : Bool
  LockPwd : String
  EscrowPubkey : String
  EscrowLock : Bool
  BalLeft : ℚ
  AmountOwed : ℚ
  OwnershipShift : ℚ
  DateLastPaid : Int
  InvestmentType : String
  Chain : String
  InvestorAssetCode : String
  SeedAssetCode : String
  DebtAssetCode : String
  PaybackAssetCode : String
  Metadata : String
  InterestRate : ℚ
  Votes : ℚ
  RecipientIndex : Nat
  OriginatorIndex : Nat
  GuarantorIndex : Nat
  EstimatedAcquisition : Nat
  PaybackPeriod : Nat
  deriving DecidableEq

/-- The Go zero value of `Project` (what `var project Project` denotes, and
what `RetrieveProject` leaves behind when the record is not found). -/
def Project.zero : Project :=
  { Index := 0, Stage := 0, TotalValue := 0, MoneyRaised := 0
    SeedMoneyRaised := 0, SeedInvestmentFactor := 0, SeedInvestmentCap := 0
    InvestorIndices := [], InvestorMap := [], WaterfallMap := []
    Lock := false, LockPwd := "", EscrowPubkey := "", EscrowLock := false
    BalLeft := 0, AmountOwed := 0, OwnershipShift := 0, DateLastPaid := 0
    InvestmentType := "", Chain := "", InvestorAssetCode := ""
    SeedAssetCode := "", DebtAssetCode := "", PaybackAssetCode := ""
    Metadata := "", InterestRate := 0, Votes := 0
    RecipientIndex := 0, OriginatorIndex := 0, GuarantorIndex := 0
    EstimatedAcquisition := 0, PaybackPeriod := 0 }

/-- The fields of `core.Investor` read by `core/contract.go`
(`U.Index`, `U.StellarWallet.PublicKey`, `U.Email`, `U.Notification`). -/
structure Investor where
  index : Nat
  publicKey : String
  email : String
  notification : Bool
  deriving DecidableEq

/-- The fields of `core.Recipient` read by `core/contract.go`. -/
structure Recipient where
  index : Nat
  email : String
  publicKey : String
  encryptedSeed : String
  deriving DecidableEq

/-- The fields of `core.Entity` (guarantor) read by `core/contract.go`. -/
structure Entity where
  index : Nat
  email : String
  firstLossGuaranteeAmt : ℚ
  firstLossGuarantee : String
  encryptedSeed : String
  deriving DecidableEq

/-- Association-list read: the value at key `k`, if any. -/
def alistGet? {κ α : Type} [BEq κ] (l : List (κ × α)) (k : κ) : Option α :=
  (l.find? (fun e => e.1 == k)).map Prod.snd

/-- Association-list write: replace the binding of `k`, or append it. -/
def alistSet {κ α : Type} [BEq κ] (l : List (κ × α)) (k : κ) (v : α) : List (κ × α) :=
  if l.any (fun e => e.1 == k) then
    l.map (fun e => if e.1 == k then (k, v) else e)
  else
    l ++ [(k, v)]

/-- Keyed record lookup: `Retrieve*` of the Ledger Accessor returns `none`
exactly when the record is not found. -/
abbrev lookup {α : Type} (l : List (Nat × α)) (k : Nat) : Option α :=
  alistGet? l k

/-- Keyed record store (the `Save` of the Ledger Accessor). -/
abbrev storeKV {α : Type} (l : List (Nat × α)) (k : Nat) (v : α) : List (Nat × α) :=
  alistSet l k v

/-- Go `map[string]float64` assignment `m[k] = v`. -/
abbrev mapSet (m : List (String × ℚ)) (k : String) (v : ℚ) : List (String × ℚ) :=
  alistSet m k v

/-- Go `map[string]float64` read `m[k]` (as an `Option`). -/
abbrev mapLookup (m : List (String × ℚ)) (k : String) : Option ℚ :=
  alistGet? m k

/-- The Ledger Accessor state: one key space per record type. -/
structure DB where
  projects : List (Nat × Project)
  investors : List (Nat × Investor)
  recipients : List (Nat × Recipient)
  entities : List (Nat × Entity)
  deriving DecidableEq

/-- Outward-visible actions of the engine, recorded in order. -/
inductive Effect where
  /-- `project.Save()` persisting this snapshot. -/
  | saveProject (p : Project)
  /-- `issuer.InitIssuer` for the project. -/
  | initIssuer (projIndex : Nat)
  /-- `issuer.FundIssuer` for the project. -/
  | fundIssuer (projIndex : Nat)
  /-- chain-side investment instrument issue/transfer (`MunibondInvest`). -/
  | munibondInvest (invIndex : Nat) (amount : ℚ) (assetCode : String) (seedRound : Bool)
  /-- `notif.SendRecpNotFoundEmail`. -/
  | recpNotFoundEmail (projIndex recpIndex : Nat)
  /-- `time.Sleep(consts.OneHour)` backoff before the retried lookup. -/
  | sleepOneHour
  /-- `notif.SendUnlockNotifToRecipient`. -/
  | unlockNotif (projIndex : Nat) (email : String)
  /-- `go sendRecipientAssets(projIndex)`: escrow-release pipeline spawn. -/
  | spawnRecipientAssets (projIndex : Nat)
  /-- `escrow.InitEscrow` for the project. -/
  | initEscrow (projIndex : Nat)
  /-- `escrow.TransferFundsToEscrow(amount, ...)`. -/
  | transferToEscrow (amount : ℚ)
  /-- debt/payback instrument issue to the recipient (`MunibondReceive`),
  sized by the given amount. -/
  | munibondReceive (recpIndex projIndex : Nat) (amount : ℚ)
  /-- `go monitorPaybacks(recpIndex, projIndex)`: payback monitor spawn. -/
  | spawnMonitor (recpIndex projIndex : Nat)
  /-- chain-side payback instrument transfer attempt (`MunibondPayback`). -/
  | munibondPaybackAttempt (recpIndex projIndex : Nat) (amount : ℚ)
  /-- `escrow.SendFundsFromEscrow` attempt; `delivered` is false when the
  chain reported an error for this investor (the loop then continues). -/
  | escrowSend (dest : String) (amount : ℚ) (delivered : Bool)
  /-- `assets.SendAsset(assetCode, issuerPubkey, dest, amount, ...)`. -/
  | assetSend (assetCode issuerPubkey dest : String) (amount : ℚ)
  deriving DecidableEq

/-- Modelled from the spec: the Chain Service, wallet, and Munibond
instrument collaborators (`xlm`, `wallet`, `assets`, `escrow`, `issuer`
packages and the `MunibondInvest`/`MunibondPayback`/`MunibondReceive`
functions of the openx platform) are external to `core/contract.go`; the
spec treats each as "a fallible remote service". Each primitive is an
arbitrary total function of its inputs; an `Option`/`Err` result encodes
success or failure of the remote call. -/
structure ChainEnv where
  /-- `wallet.ReturnPubkey(seed)`. -/
  returnPubkey : String → Option String
  /-- `xlm.AccountExists(pubkey)`. -/
  accountExists : String → Bool
  /-- `xlm.GetAssetBalance(pubkey, assetCode)`: `none` is a query failure. -/
  getAssetBalance : String → String → Option ℚ
  /-- `investor.CanInvest(amount)` (openx): sufficient-balance check,
  keyed here by investor index. -/
  canInvest : Nat → ℚ → Bool
  /-- `issuer.InitIssuer` outcome. -/
  initIssuerErr : Err
  /-- `issuer.FundIssuer` outcome. -/
  fundIssuerErr : Err
  /-- `MunibondInvest(... invIndex ... amount, projIndex ...)` outcome. -/
  munibondInvest : Nat → Nat → ℚ → Err
  /-- `MunibondPayback(... recpIndex, amount, ... projIndex ...)`: returns
  `pct`, the ownership fraction of this payment, or fails. -/
  munibondPayback : Nat → Nat → ℚ → Option ℚ
  /-- `MunibondReceive` outcome. -/
  munibondReceive : Err
  /-- `wallet.DecryptSeed(encryptedSeed, pwd)`. -/
  decryptSeed : String → String → Option String
  /-- `escrow.InitEscrow(projIndex, ...)`: returns the escrow pubkey. -/
  initEscrow : Nat → Option String
  /-- `escrow.TransferFundsToEscrow(amount, ...)` outcome. -/
  transferFundsToEscrow : ℚ → Err
  /-- `escrow.SendFundsFromEscrow(escrowPubkey, destPubkey, ..., amount, ...)`. -/
  sendFundsFromEscrow : String → String → ℚ → Err
  /-- `assets.SendAsset(assetCode, issuerPubkey, dest, amount, ...)`:
  returns a txhash or fails. -/
  sendAsset : String → String → String → ℚ → Option String
  /-- `assets.AssetID`: deterministic asset identifier derivation. -/
  assetID : String → String
  /-- `consts.Mainnet`: global network-mode flag. -/
  mainnet : Bool
  /-- `utils.Unix()`: current time. -/
  now : Int

/-- Modelled from the spec: `consts.InvestorAssetPrefix` (asset-identifier
prefix constant defined outside this module). -/
def InvestorAssetPrefix : String := "InvestorAssets"

/-- Modelled from the spec: `consts.DebtAssetPrefix`. -/
def DebtAssetPrefix : String := "DebtAssets"

/-- Modelled from the spec: `consts.PaybackAssetPrefix`. -/
def PaybackAssetPrefix : String := "PaybackAssets"

/-- `project.Save()`: persist the snapshot into the project key space and
record the save in the effect trace. The Ledger Accessor is the spec's
transactional key-value store, so a save that is reached always succeeds;
the source's dead `if err != nil` arms after `Save()` are therefore elided. -/
def saveProject (db : DB) (p : Project) : DB × Effect :=
  ({ db with projects := storeKV db.projects p.Index p }, .saveProject p)

/-- `preInvestmentCheck` (contract.go:107-164): the pre-investment gate run
by both `Invest` and `SeedInvest`. Returns the (possibly provisioned)
project together with the Go error value. -/
def preInvestmentCheck (db : DB) (ch : ChainEnv) (projIndex invIndex : Nat)
    (invAmount : ℚ) (seed : String) : (Project × Err) × DB × List Effect :=
  match lookup db.projects projIndex with
  | none => ((Project.zero, errNew "could not retrieve project"), db, [])
  | some project =>
    match lookup db.investors invIndex with
    | none => ((project, errNew "could not retrieve investor"), db, [])
    | some investor =>
      if !(ch.canInvest investor.index invAmount) then
        ((project, errNew "Investor has less balance than what is required to invest in this project"), db, [])
      else
        match ch.returnPubkey seed with
        | none => ((project, errNew "could not get pubkey from seed"), db, [])
        | some pubkey =>
          if !(ch.accountExists pubkey) then
            ((project, errNew "account does not exist yet, quitting"), db, [])
          -- check if investment amount is greater than what the project requires
          else if invAmount > project.TotalValue - project.MoneyRaised then
            ((project, errNew "Investment amount greater than what is required! Adjust your investment"), db, [])
          else if project.Chain = "stellar" ∨ project.Chain = "" then
            if project.SeedAssetCode = "" ∧ project.InvestorAssetCode = "" then
              -- lazy one-time issuer provisioning
              let project := { project with
                InvestorAssetCode := ch.assetID (InvestorAssetPrefix ++ project.Metadata) }
              let (db, e1) := saveProject db project
              let tr := [e1, Effect.initIssuer projIndex]
              match ch.initIssuerErr with
              | some e => ((project, wrap (some e) "error while initializing issuer"), db, tr)
              | none =>
                let tr := tr ++ [Effect.fundIssuer projIndex]
                match ch.fundIssuerErr with
                | some e => ((project, wrap (some e) "error while funding issuer"), db, tr)
                | none => ((project, none), db, tr)
            else ((project, none), db, [])
          else if project.Chain = "algorand" then
            -- the source wraps the `err` in scope, which is nil here, and
            -- pkg/errors.Wrap(nil, msg) is nil: no error is reported
            ((project, wrap none "algorand investments not supported yet, quitting"), db, [])
          else
            ((project, wrap none "chain not supported, quitting"), db, [])

/-- The `for i := range project.InvestorIndices` loop of
`updateAfterInvestment` (contract.go:285-309): recompute every recorded
share from freshly queried on-chain balances. A failed balance query is
replaced by a zero balance; a failed investor retrieval aborts with the
error. Returns the Go error value and the map as far as it was rebuilt. -/
def recomputeInvestorMap (db : DB) (ch : ChainEnv) (invAssetCode seedAssetCode : String)
    (totalValue : ℚ) (indices : List Nat) (acc : List (String × ℚ)) :
    Err × List (String × ℚ) :=
  match indices with
  | [] => (none, acc)
  | i :: rest =>
    match lookup db.investors i with
    | none => (errNew "error while retrieving investors, quitting", acc)
    | some investor =>
      let balance1 := (ch.getAssetBalance investor.publicKey invAssetCode).getD 0
      let balance2 := (ch.getAssetBalance investor.publicKey seedAssetCode).getD 0
      let balance := balance1 + balance2
      let percentageInvestment := balance / totalValue
      recomputeInvestorMap db ch invAssetCode seedAssetCode totalValue rest
        (mapSet acc investor.publicKey percentageInvestment)

/-- `sendRecipientNotification` (contract.go:321-337): on a failed recipient
lookup, email the platform admin, back off for one hour, retry the lookup
once, and surface the failure if it fails again. The ledger is static
across the backoff in this sequential model. -/
def sendRecipientNotification (db : DB) (project : Project) : Err × List Effect :=
  match lookup db.recipients project.RecipientIndex with
  | some recipient => (none, [.unlockNotif project.Index recipient.email])
  | none =>
    let tr := [Effect.recpNotFoundEmail project.Index project.RecipientIndex,
               Effect.sleepOneHour]
    match lookup db.recipients project.RecipientIndex with
    | none => (errNew "could not retrieve recipient", tr)
    | some recipient => (none, tr ++ [.unlockNotif project.Index recipient.email])

/-- The funding-complete block of `updateAfterInvestment`
(contract.go:262-278): when `MoneyRaised == TotalValue`, set the lock,
persist, notify the recipient, and spawn the escrow-release pipeline. -/
def fundingTrigger (db : DB) (project : Project) : Err × Project × DB × List Effect :=
  if project.MoneyRaised = project.TotalValue then
    let project := { project with Lock := true }
    let (db, e2) := saveProject db project
    match sendRecipientNotification db project with
    | (some e, ntr) =>
      (wrap (some e) "error while sending notifications to recipient", project, db, e2 :: ntr)
    | (none, ntr) =>
      (none, project, db, e2 :: ntr ++ [Effect.spawnRecipientAssets project.Index])
  else (none, project, db, [])

/-- `updateAfterInvestment` (contract.go:249-317). The
`if len(project.InvestorMap) == 0` map allocation is a no-op for the
association-list model of the Go map. -/
def updateAfterInvestment (db : DB) (ch : ChainEnv) (project : Project)
    (invAmount : ℚ) (invIndex : Nat) (seed : Bool) : Err × DB × List Effect :=
  let project := { project with MoneyRaised := project.MoneyRaised + invAmount }
  let project := if seed then
      { project with SeedMoneyRaised :=
          project.SeedMoneyRaised + invAmount * (project.SeedInvestmentFactor - 1) }
    else project
  let project := { project with InvestorIndices := project.InvestorIndices ++ [invIndex] }
  let (db, e1) := saveProject db project
  match fundingTrigger db project with
  | (some e, _, db, ttr) => (some e, db, e1 :: ttr)
  | (none, project, db, ttr) =>
    match recomputeInvestorMap db ch project.InvestorAssetCode project.SeedAssetCode
        project.TotalValue project.InvestorIndices project.InvestorMap with
    | (some e, _) => (some e, db, e1 :: ttr)
    | (none, m) =>
      let project := { project with InvestorMap := m }
      let (db, e3) := saveProject db project
      (none, db, e1 :: ttr ++ [e3])

/-- `SeedInvest` (contract.go:167-206). -/
def SeedInvest (db : DB) (ch : ChainEnv) (projIndex invIndex : Nat)
    (invAmount : ℚ) (invSeed : String) : Err × DB × List Effect :=
  match preInvestmentCheck db ch projIndex invIndex invAmount invSeed with
  | ((project, err), db, tr) =>
    match err with
    | some e => (wrap (some e) "error while performing pre investment check", db, tr)
    | none =>
      if project.Stage ≠ 1 ∧ project.Stage ≠ 2 then
        (errNew "project stage not at 1, you either have passed the seed stage or project is not at seed stage yet", db, tr)
      else if project.InvestmentType ≠ "munibond" then
        (errNew "investment models other than munibonds are not supported right now, quitting", db, tr)
      else if project.SeedInvestmentCap < invAmount then
        (errNew "you cannot invest more than what the seed investment cap permits you to, quitting", db, tr)
      else if project.Chain = "stellar" ∨ project.Chain = "" then
        let project := if project.SeedAssetCode = "" then
            { project with SeedAssetCode := "SEEDASSET" }
          else project
        let tr := tr ++ [Effect.munibondInvest invIndex invAmount project.SeedAssetCode true]
        match ch.munibondInvest invIndex projIndex invAmount with
        | some e => (wrap (some e) "error while investing", db, tr)
        | none =>
          match updateAfterInvestment db ch project invAmount invIndex true with
          | (some e, db, utr) =>
            (wrap (some e) "could not update project after investment", db, tr ++ utr)
          | (none, db, utr) => (none, db, tr ++ utr)
      else (errNew "other chain investments not supported  yet", db, tr)

/-- `Invest` (contract.go:209-246): seed-stage calls are forwarded to
`SeedInvest` against the current ledger state. -/
def Invest (db : DB) (ch : ChainEnv) (projIndex invIndex : Nat)
    (invAmount : ℚ) (invSeed : String) : Err × DB × List Effect :=
  match preInvestmentCheck db ch projIndex invIndex invAmount invSeed with
  | ((project, err), db, tr) =>
    match err with
    | some e => (wrap (some e) "pre investment check failed", db, tr)
    | none =>
      if project.InvestmentType ≠ "munibond" then
        (errNew "other investment models are not supported right now, quitting", db, tr)
      else if project.Chain = "stellar" ∨ project.Chain = "" then
        if project.Stage ≠ 4 then
          if project.Stage = 1 ∨ project.Stage = 2 then
            match SeedInvest db ch projIndex invIndex invAmount invSeed with
            | (serr, db, str) => (serr, db, tr ++ str)
          else
            (errNew "project not at stage where it can solicit investment, quitting", db, tr)
        else
          let tr := tr ++ [Effect.munibondInvest invIndex invAmount project.InvestorAssetCode false]
          match ch.munibondInvest invIndex projIndex invAmount with
          | some e => (wrap (some e) "error while investing", db, tr)
          | none =>
            match updateAfterInvestment db ch project invAmount invIndex false with
            | (some e, db, utr) =>
              (wrap (some e) "failed to update project after investment", db, tr ++ utr)
            | (none, db, utr) => (none, db, tr ++ utr)
      else (errNew "other chain investments not supported right now", db, tr)

/-- `updateProjectAfterAcceptance` (contract.go:458-471): carry the seed
surplus into `BalLeft`, advance to stage 5 (`Stage5.Number`), persist, and
spawn the payback monitor. -/
def updateProjectAfterAcceptance (db : DB) (project : Project) : Err × DB × List Effect :=
  let project := { project with
    BalLeft := project.TotalValue + project.SeedMoneyRaised
    Stage := 5 }
  let (db, e1) := saveProject db project
  (none, db, [e1, Effect.spawnMonitor project.RecipientIndex project.Index])

/-- `sendRecipientAssets` (contract.go:386-455) from the point at which its
real-time poll loop (contract.go:393-404) has exited: the source comment at
the transfer reads "transfer totalValue to the escrow, do not account for
SeedMoneyRaised here", while the debt/payback instrument issue and
`updateProjectAfterAcceptance` do include `SeedMoneyRaised`. -/
def sendRecipientAssetsBody (db : DB) (ch : ChainEnv) (projIndex : Nat) :
    Err × DB × List Effect :=
  match lookup db.projects projIndex with
  | none => (errNew "Could not retrieve project", db, [])
  | some project =>
    match lookup db.recipients project.RecipientIndex with
    | none => (errNew "could not retrieve recipient", db, [])
    | some recipient =>
      match ch.decryptSeed recipient.encryptedSeed project.LockPwd with
      | none => (errNew "could not decrypt seed", db, [])
      | some _recpSeed =>
        match ch.initEscrow project.Index with
        | none => (errNew "error while initializing issuer", db, [Effect.initEscrow project.Index])
        | some escrowPubkey =>
          let project := { project with EscrowPubkey := escrowPubkey }
          let tr := [Effect.initEscrow project.Index, Effect.transferToEscrow project.TotalValue]
          match ch.transferFundsToEscrow project.TotalValue with
          | some e => (wrap (some e) "could not transfer funds to the escrow, quitting!", db, tr)
          | none =>
            -- set lockpwd to nil immediately after retrieving the seed
            let project := { project with LockPwd := "" }
            let project := { project with
              DebtAssetCode := ch.assetID (DebtAssetPrefix ++ project.Metadata)
              PaybackAssetCode := ch.assetID (PaybackAssetPrefix ++ project.Metadata) }
            let tr := tr ++ [Effect.munibondReceive project.RecipientIndex projIndex
              (project.TotalValue + project.SeedMoneyRaised)]
            match ch.munibondReceive with
            | some e =>
              (wrap (some e) "error while receiving assets from issuer on recipient end", db, tr)
            | none =>
              match updateProjectAfterAcceptance db project with
              | (uerr, db, utr) => (uerr, db, tr ++ utr)

/-- The project-record update block of `Payback` (contract.go:495-510),
applied between the chain-side payback transfer and `project.Save()`. -/
def paybackUpdate (project : Project) (pct amount : ℚ) (now : Int) : Project :=
  let project := { project with
    BalLeft := project.BalLeft - (1 - pct) * amount
    AmountOwed := project.AmountOwed - amount
    OwnershipShift := project.OwnershipShift + pct
    DateLastPaid := now }
  let project := if project.BalLeft = 0 then { project with Stage := 9 } else project
  let project := if project.OwnershipShift = 1 then
      { project with BalLeft := 0, AmountOwed := 0 }
    else project
  project

/-- `DistributePayments` (contract.go:527-558). The result of wrapping the
retrieval error is discarded by the source (statement `errors.Wrap(err, ...)`
with no assignment and no return), so a failed lookup leaves the zero-valued
`Project` in place and the function proceeds. The Go map iteration over
`InvestorMap` is modelled by the association-list order. -/
def DistributePayments (db : DB) (ch : ChainEnv) (recipientSeed escrowPubkey : String)
    (projIndex : Nat) (amount : ℚ) : Err × DB × List Effect :=
  let project := (lookup db.projects projIndex).getD Project.zero
  if project.EscrowLock then
    (errNew "project escrow locked, cannot send funds", db, [])
  else
    let fixedRate := if project.InterestRate ≠ 0 then project.InterestRate else (1 : ℚ) / 20
    let amountGivenBack := fixedRate * amount
    let tr := project.InvestorMap.map (fun e =>
      let txAmount := e.2 * amountGivenBack
      -- funds are sent from the two-party escrow at project.EscrowPubkey; a
      -- failed send is logged and the loop continues with the next investor
      Effect.escrowSend e.1 txAmount
        ((ch.sendFundsFromEscrow project.EscrowPubkey e.1 txAmount).isNone))
    (none, db, tr)

/-- `Payback` (contract.go:478-524). -/
def Payback (db : DB) (ch : ChainEnv) (recpIndex projIndex : Nat)
    (assetName : String) (amount : ℚ) (recipientSeed : String) : Err × DB × List Effect :=
  match lookup db.projects projIndex with
  | none => (errNew "Could not retrieve project", db, [])
  | some project =>
    if project.InvestmentType ≠ "munibond" then
      (errNew "other investment models are not supported right now, quitting", db, [])
    else
      let tr := [Effect.munibondPaybackAttempt recpIndex projIndex amount]
      match ch.munibondPayback recpIndex projIndex amount with
      | none => (errNew "Error while paying back the issuer", db, tr)
      | some pct =>
        let project := paybackUpdate project pct amount ch.now
        let (db, e1) := saveProject db project
        match DistributePayments db ch recipientSeed project.EscrowPubkey projIndex amount with
        | (some e, db, dtr) =>
          (wrap (some e) "error while distributing payments", db, tr ++ [e1] ++ dtr)
        | (none, db, dtr) => (none, db, tr ++ [e1] ++ dtr)

/-- Modelled from the spec: `consts.StablecoinCode`, the test-network
settlement asset code (the consts package is outside this module). -/
def StablecoinCode : String := "STABLEUSD"

/-- Modelled from the spec: `consts.StablecoinPublicKey`. -/
def StablecoinPublicKey : String := "STABLECOIN_PUBKEY"

/-- Modelled from the spec: `consts.AnchorUSDCode`, the mainnet settlement
asset code. -/
def AnchorUSDCode : String := "USD"

/-- Modelled from the spec: `consts.AnchorUSDAddress`. -/
def AnchorUSDAddress : String := "ANCHOR_USD_ADDRESS"

/-- `CoverFirstLoss` (contract.go:665-708): clamp the requested amount to
the first-loss ceiling of the guarantor, then transfer it from the
guarantor account to the escrow in the network-mode settlement asset. -/
def CoverFirstLoss (db : DB) (ch : ChainEnv) (projIndex entityIndex : Nat)
    (amount : ℚ) : Err × DB × List Effect :=
  match lookup db.projects projIndex with
  | none => (errNew "could not retrieve projects from database, quitting", db, [])
  | some project =>
    match lookup db.entities entityIndex with
    | none => (errNew "could not retrieve entity from database, quitting", db, [])
    | some entity =>
      if project.GuarantorIndex ≠ entity.index then
        (errNew "guarantor index does not match with entity index in database", db, [])
      else
        -- adjust first loss to cover for what is available
        let amount := if entity.firstLossGuaranteeAmt < amount then
            entity.firstLossGuaranteeAmt
          else amount
        match ch.decryptSeed entity.encryptedSeed entity.firstLossGuarantee with
        | none => (errNew "could not decrypt seed, quitting!", db, [])
        | some _seed =>
          if !ch.mainnet then
            let tr := [Effect.assetSend StablecoinCode StablecoinPublicKey
              project.EscrowPubkey amount]
            match ch.sendAsset StablecoinCode StablecoinPublicKey project.EscrowPubkey amount with
            | none => (errNew "could not transfer asset to escrow, quitting", db, tr)
            | some _txhash => (none, db, tr)
          else
            let tr := [Effect.assetSend AnchorUSDCode AnchorUSDAddress
              project.EscrowPubkey amount]
            match ch.sendAsset AnchorUSDCode AnchorUSDAddress project.EscrowPubkey amount with
            | none => (errNew "could not transfer asset to escrow, quitting", db, tr)
            | some _txhash => (none, db, tr)

/-- Modelled from the spec: `NormalThreshold`, an escalation-band boundary
constant defined outside this module ("Exact band boundaries are
configuration constants external to this core"); the source comments fix
the gentle band at one-to-two overdue periods. -/
def NormalThreshold : ℚ := 1

/-- Modelled from the spec: `AlertThreshold`, the upper boundary of the
gentle-reminder band (two overdue periods per the source comments). -/
def AlertThreshold : ℚ := 2

/-- Modelled from the spec: `SternAlertThreshold`, the lower boundary of
the stern-reminder band ("four consecutive cycles" per the source comment). -/
def SternAlertThreshold : ℚ := 4

/-- Modelled from the spec: `DisconnectionThreshold`, the boundary of the
disconnection band. -/
def DisconnectionThreshold : ℚ := 6

/-- Which branch of the `monitorPaybacks` escalation chain a cycle takes. -/
inductive EscalationAction where
  | onTrack
  | gentleReminder
  | sternReminder
  | disconnect
  /-- the fall-through case: no branch of the if/else-if chain runs. -/
  | noBand
  deriving DecidableEq

/-- The escalation decision of one `monitorPaybacks` cycle on `factor`
(contract.go:597-645): a direct transcription of the if/else-if chain. -/
def escalationAction (factor : ℚ) : EscalationAction :=
  if factor ≤ 1 then .onTrack
  else if NormalThreshold < factor ∧ factor < AlertThreshold then .gentleReminder
  else if SternAlertThreshold ≤ factor ∧ factor < DisconnectionThreshold then .sternReminder
  else if DisconnectionThreshold ≤ factor then .disconnect
  else .noBand

/-- Guard of the on-track branch as written in the source: `factor <= 1`. -/
def onTrackGuard (f : ℚ) : Bool := decide (f ≤ 1)

/-- Guard of the gentle-reminder branch as written in the source:
`factor > NormalThreshold && factor < AlertThreshold`. -/
def gentleGuard (f : ℚ) : Bool := decide (NormalThreshold < f ∧ f < AlertThreshold)

/-- Guard of the stern-reminder branch as written in the source:
`factor >= SternAlertThreshold && factor < DisconnectionThreshold`. -/
def sternGuard (f : ℚ) : Bool := decide (SternAlertThreshold ≤ f ∧ f < DisconnectionThreshold)

/-- Guard of the disconnection branch as written in the source:
`factor >= DisconnectionThreshold`. -/
def disconnectGuard (f : ℚ) : Bool := decide (DisconnectionThreshold ≤ f)

/-- How many of the four escalation-band guards hold at a given `factor`. -/
def numBandsFired (f : ℚ) : Nat :=
  (if onTrackGuard f then 1 else 0) + (if gentleGuard f then 1 else 0) +
    (if sternGuard f then 1 else 0) + (if disconnectGuard f then 1 else 0)

/-! ### Observations on effect traces -/

/-- The amounts of all `assets.SendAsset` transfers in a trace. -/
def assetSendAmounts (tr : List Effect) : List ℚ :=
  tr.filterMap (fun e => match e with
    | Effect.assetSend _ _ _ a => some a
    | _ => none)

/-- The amounts of all `escrow.TransferFundsToEscrow` transfers in a trace. -/
def escrowTransferAmounts (tr : List Effect) : List ℚ :=
  tr.filterMap (fun e => match e with
    | Effect.transferToEscrow a => some a
    | _ => none)

/-- The (destination, amount) pairs of all `escrow.SendFundsFromEscrow`
attempts in a trace, kept whether or not the chain delivered them. -/
def escrowSendTargets (tr : List Effect) : List (String × ℚ) :=
  tr.filterMap (fun e => match e with
    | Effect.escrowSend d a _ => some (d, a)
    | _ => none)

/-- The number of escrow-release pipeline spawns in a trace. -/
def countSpawns (tr : List Effect) : Nat :=
  tr.countP (fun e => match e with
    | Effect.spawnRecipientAssets _ => true
    | _ => false)

/-! ### Association-list facts -/

/-- The replace-pass of `alistSet` leaves the binding of `k` at `(k, v)`. -/
theorem find?_subst_of_any {κ α : Type} [BEq κ] [LawfulBEq κ]
    {l : List (κ × α)} {k : κ} (v : α) (h : l.any (fun e => e.1 == k) = true) :
    (l.map (fun e => if e.1 == k then (k, v) else e)).find? (fun e => e.1 == k)
      = some (k, v) := by
  induction l with
  | nil => simp at h
  | cons hd t ih =>
    by_cases hhd : (hd.1 == k) = true
    · simp only [List.map_cons, if_pos hhd]
      rw [List.find?_cons_of_pos _ (by simp)]
    · simp only [List.map_cons, if_neg hhd]
      rw [List.find?_cons_of_neg _ (by simpa using hhd)]
      apply ih
      simp only [List.any_cons, Bool.or_eq_true] at h
      exact h.resolve_left hhd

/-- The replace-pass of `alistSet` does not touch bindings of other keys. -/
theorem find?_subst_ne {κ α : Type} [BEq κ] [LawfulBEq κ]
    (l : List (κ × α)) (k k' : κ) (v : α) (hne : ¬ k' = k) :
    (l.map (fun e => if e.1 == k then (k, v) else e)).find? (fun e => e.1 == k')
      = l.find? (fun e => e.1 == k') := by
  induction l with
  | nil => rfl
  | cons hd t ih =>
    by_cases hhd : (hd.1 == k) = true
    · have h1 : hd.1 = k := by simpa using hhd
      have hk2 : (hd.1 == k') = false := by
        simp [h1]
        exact fun hh => hne hh.symm
      have hk3 : ((k == k') : Bool) = false := by
        simp
        exact fun hh => hne hh.symm
      simp only [List.map_cons, if_pos hhd, List.find?_cons, hk2, hk3]
      exact ih
    · simp only [List.map_cons, if_neg hhd]
      cases hk : (hd.1 == k') <;> simp only [List.find?_cons, hk] <;>
        first
        | rfl
        | exact ih

/-- Reading a key right after writing it returns the written value. -/
theorem alistGet?_alistSet_self {κ α : Type} [BEq κ] [LawfulBEq κ]
    (l : List (κ × α)) (k : κ) (v : α) : alistGet? (alistSet l k v) k = some v := by
  unfold alistGet? alistSet
  by_cases h : l.any (fun e => e.1 == k) = true
  · rw [if_pos h, find?_subst_of_any v h]
    rfl
  · rw [if_neg h, List.find?_append]
    have hnone : l.find? (fun e => e.1 == k) = none := by
      rw [List.find?_eq_none]
      intro x hx hpx
      exact h (List.any_eq_true.mpr ⟨x, hx, hpx⟩)
    rw [hnone]
    simp [List.find?_cons_of_pos]

/-- `lookup` right after `storeKV` at the same key returns the stored
record. -/
theorem lookup_storeKV_self {α : Type} (l : List (Nat × α)) (k : Nat) (v : α) :
    lookup (storeKV l k v) k = some v := alistGet?_alistSet_self l k v

/-- Writing one key does not change the value read at another key. -/
theorem alistGet?_alistSet_ne {κ α : Type} [BEq κ] [LawfulBEq κ]
    (l : List (κ × α)) (k k' : κ) (v : α) (hne : ¬ k' = k) :
    alistGet? (alistSet l k v) k' = alistGet? l k' := by
  unfold alistGet? alistSet
  by_cases h : l.any (fun e => e.1 == k) = true
  · rw [if_pos h, find?_subst_ne l k k' v hne]
  · rw [if_neg h, List.find?_append]
    have hlast : ([((k, v) : κ × α)].find? (fun e => e.1 == k')) = none := by
      rw [List.find?_cons_of_neg _ (by simp; exact fun hh => hne hh.symm), List.find?_nil]
    rw [hlast]
    cases l.find? (fun e => e.1 == k') <;> rfl

/-! ### A benign oracle environment for concrete scenarios -/

/-- An oracle environment in which every remote call succeeds; concrete
witness and counterexample scenarios start from it. -/
def ChainEnv.ok : ChainEnv :=
  { returnPubkey := fun _ => some "PK"
    accountExists := fun _ => true
    getAssetBalance := fun _ _ => some 0
    canInvest := fun _ _ => true
    initIssuerErr := none
    fundIssuerErr := none
    munibondInvest := fun _ _ _ => none
    munibondPayback := fun _ _ _ => some (1 / 5)
    munibondReceive := none
    decryptSeed := fun _ _ => some "SEED"
    initEscrow := fun _ => some "ESCROWPK"
    transferFundsToEscrow := fun _ => none
    sendFundsFromEscrow := fun _ _ _ => none
    sendAsset := fun _ _ _ _ => some "TX"
    assetID := fun s => s
    mainnet := false
    now := 100 }

/-! ### C10 -/

/-- C10: when the project-record lookup inside `DistributePayments` fails,
the error is discarded rather than returned: the function proceeds with the
zero-valued project (empty `InvestorMap`, `EscrowLock` false) and returns
success having performed no transfers. -/
theorem C10_lookup_failure_discarded (db : DB) (ch : ChainEnv)
    (recipientSeed escrowPubkey : String) (projIndex : Nat) (amount : ℚ)
    (h : lookup db.projects projIndex = none) :
    DistributePayments db ch recipientSeed escrowPubkey projIndex amount = (none, db, []) := by
  unfold DistributePayments
  rw [h]
  rfl

/-- C10 witness: a distribution against an empty ledger reports success and
transfers nothing. -/
theorem C10_witness :
    DistributePayments { projects := [], investors := [], recipients := [], entities := [] }
        ChainEnv.ok "rs" "epk" 1 100
      = (none, { projects := [], investors := [], recipients := [], entities := [] }, []) :=
  C10_lookup_failure_discarded _ ChainEnv.ok "rs" "epk" 1 100 rfl

/-! ### C9 -/

/-- C9 (counterexample): with the documented escalation thresholds, a factor
of 3 is strictly greater than 1 yet the monitor cycle takes no escalation
branch at it, refuting the claim that every factor greater than 1 falls into
exactly one escalation band. -/
theorem C9_counterexample :
    (1 : ℚ) < 3 ∧ escalationAction 3 = EscalationAction.noBand ∧ numBandsFired 3 = 0 := by
  refine ⟨by norm_num, by decide, by decide⟩

/-- The band tally as a function of where `factor` sits between the
thresholds: exactly one guard holds on each of the intervals
`(-inf, 1]`, `(1, 2)`, `[4, 6)`, `[6, inf)`, and none on `[2, 4)`. -/
theorem numBandsFired_eq (f : ℚ) :
    numBandsFired f = if f ≤ 1 then 1 else if f < 2 then 1 else if f < 4 then 0 else 1 := by
  have c1 : onTrackGuard f = true ↔ f ≤ 1 := by simp [onTrackGuard]
  have c2 : gentleGuard f = true ↔ 1 < f ∧ f < 2 := by
    simp [gentleGuard, NormalThreshold, AlertThreshold]
  have c3 : sternGuard f = true ↔ 4 ≤ f ∧ f < 6 := by
    simp [sternGuard, SternAlertThreshold, DisconnectionThreshold]
  have c4 : disconnectGuard f = true ↔ 6 ≤ f := by
    simp [disconnectGuard, DisconnectionThreshold]
  unfold numBandsFired
  rcases le_or_lt f 1 with h1 | h1
  · have g2 : ¬ gentleGuard f = true := by rw [c2]; rintro ⟨a, b⟩; linarith
    have g3 : ¬ sternGuard f = true := by rw [c3]; rintro ⟨a, b⟩; linarith
    have g4 : ¬ disconnectGuard f = true := by rw [c4]; intro a; linarith
    rw [if_pos (c1.mpr h1), if_neg g2, if_neg g3, if_neg g4, if_pos h1]
  · have g1 : ¬ onTrackGuard f = true := by rw [c1]; intro a; linarith
    rw [if_neg g1, if_neg (by intro a; linarith : ¬ f ≤ 1)]
    rcases lt_or_le f 2 with h2 | h2
    · have g3 : ¬ sternGuard f = true := by rw [c3]; rintro ⟨a, b⟩; linarith
      have g4 : ¬ disconnectGuard f = true := by rw [c4]; intro a; linarith
      rw [if_pos (c2.mpr ⟨h1, h2⟩), if_neg g3, if_neg g4, if_pos h2]
    · have g2 : ¬ gentleGuard f = true := by rw [c2]; rintro ⟨a, b⟩; linarith
      rw [if_neg g2, if_neg (by intro a; linarith : ¬ f < 2)]
      rcases lt_or_le f 4 with h3 | h3
      · have g3 : ¬ sternGuard f = true := by rw [c3]; rintro ⟨a, b⟩; linarith
        have g4 : ¬ disconnectGuard f = true := by rw [c4]; intro a; linarith
        rw [if_neg g3, if_neg g4, if_pos h3]
      · rw [if_neg (by intro a; linarith : ¬ f < 4)]
        rcases lt_or_le f 6 with h4 | h4
        · have g4 : ¬ disconnectGuard f = true := by rw [c4]; intro a; linarith
          rw [if_pos (c3.mpr ⟨h3, h4⟩), if_neg g4]
        · have g3 : ¬ sternGuard f = true := by rw [c3]; rintro ⟨a, b⟩; linarith
          rw [if_neg g3, if_pos (c4.mpr h4)]

/-- C9 (amended): the escalation-band guards of the monitor cycle are
pairwise mutually exclusive (at most one fires at any factor) and ordered,
each level strictly above the previous; but factors in
`[AlertThreshold, SternAlertThreshold)` are greater than 1 and fire none. -/
theorem C9_amended_bands :
    (∀ f : ℚ, numBandsFired f ≤ 1) ∧
    (∀ f g : ℚ, onTrackGuard f = true → gentleGuard g = true → f < g) ∧
    (∀ f g : ℚ, gentleGuard f = true → sternGuard g = true → f < g) ∧
    (∀ f g : ℚ, sternGuard f = true → disconnectGuard g = true → f < g) ∧
    (∀ f : ℚ, AlertThreshold ≤ f → f < SternAlertThreshold →
      1 < f ∧ numBandsFired f = 0) := by
  refine ⟨?_, ?_, ?_, ?_, ?_⟩
  · intro f
    rw [numBandsFired_eq]
    split_ifs <;> norm_num
  · intro f g hf hg
    simp only [onTrackGuard, gentleGuard, NormalThreshold, AlertThreshold,
      decide_eq_true_eq] at hf hg
    linarith [hg.1]
  · intro f g hf hg
    simp only [gentleGuard, sternGuard, NormalThreshold, AlertThreshold,
      SternAlertThreshold, DisconnectionThreshold, decide_eq_true_eq] at hf hg
    linarith [hf.2, hg.1]
  · intro f g hf hg
    simp only [sternGuard, disconnectGuard, SternAlertThreshold,
      DisconnectionThreshold, decide_eq_true_eq] at hf hg
    linarith [hf.2]
  · intro f h1 h2
    simp only [AlertThreshold] at h1
    simp only [SternAlertThreshold] at h2
    refine ⟨by linarith, ?_⟩
    rw [numBandsFired_eq, if_neg (by intro a; linarith : ¬ f ≤ 1),
      if_neg (by intro a; linarith : ¬ f < 2), if_pos (by linarith : f < 4)]

/-- C9 witness: sample factors in each band ordered as the theorem states,
and the gap value 3. -/
theorem C9_witness :
    ((1 : ℚ) / 2 < 3 / 2 ∧ (3 : ℚ) / 2 < 5 ∧ (5 : ℚ) < 7) ∧
    (1 < (3 : ℚ) ∧ numBandsFired 3 = 0) :=
  ⟨⟨C9_amended_bands.2.1 (1 / 2) (3 / 2)
      (by simp [onTrackGuard]; norm_num)
      (by simp [gentleGuard, NormalThreshold, AlertThreshold]; norm_num),
    C9_amended_bands.2.2.1 (3 / 2) 5
      (by simp [gentleGuard, NormalThreshold, AlertThreshold]; norm_num)
      (by simp [sternGuard, SternAlertThreshold, DisconnectionThreshold]; norm_num),
    C9_amended_bands.2.2.2.1 5 7
      (by simp [sternGuard, SternAlertThreshold, DisconnectionThreshold]; norm_num)
      (by simp [disconnectGuard, DisconnectionThreshold]; norm_num)⟩,
   C9_amended_bands.2.2.2.2 3
      (by simp [AlertThreshold]; norm_num)
      (by simp [SternAlertThreshold]; norm_num)⟩

/-! ### C7 -/

/-- C7: every transfer attempted by `CoverFirstLoss` carries exactly
`min(requestedAmount, guarantor.FirstLossGuaranteeAmt)`: the requested
amount is clamped to the first-loss ceiling, so the function never
transfers more than that min. -/
theorem C7_cover_first_loss_clamped (db : DB) (ch : ChainEnv)
    (projIndex entityIndex : Nat) (amount : ℚ) (entity : Entity)
    (hent : lookup db.entities entityIndex = some entity) :
    assetSendAmounts (CoverFirstLoss db ch projIndex entityIndex amount).2.2 = [] ∨
    assetSendAmounts (CoverFirstLoss db ch projIndex entityIndex amount).2.2
      = [min amount entity.firstLossGuaranteeAmt] := by
  unfold CoverFirstLoss
  cases hp : lookup db.projects projIndex with
  | none => left; rfl
  | some project =>
    rw [hent]
    dsimp only
    by_cases hg : project.GuarantorIndex ≠ entity.index
    · rw [if_pos hg]
      left; rfl
    · rw [if_neg hg]
      have hmin : (if entity.firstLossGuaranteeAmt < amount then
          entity.firstLossGuaranteeAmt else amount) = min amount entity.firstLossGuaranteeAmt := by
        rcases lt_or_le entity.firstLossGuaranteeAmt amount with h | h
        · rw [if_pos h, min_eq_right h.le]
        · rw [if_neg (not_lt.mpr h), min_eq_left h]
      rw [hmin]
      cases hd : ch.decryptSeed entity.encryptedSeed entity.firstLossGuarantee with
      | none => left; rfl
      | some s =>
        dsimp only
        cases hm : ch.mainnet with
        | false =>
          simp only [Bool.not_false, if_true]
          cases ch.sendAsset StablecoinCode StablecoinPublicKey project.EscrowPubkey
              (min amount entity.firstLossGuaranteeAmt) with
          | none => right; rfl
          | some tx => right; rfl
        | true =>
          simp only [Bool.not_true, Bool.false_eq_true, if_false]
          cases ch.sendAsset AnchorUSDCode AnchorUSDAddress project.EscrowPubkey
              (min amount entity.firstLossGuaranteeAmt) with
          | none => right; rfl
          | some tx => right; rfl

/-- A project guaranteed by entity 3, for the C7 scenario. -/
def C7proj : Project :=
  { Project.zero with Index := 1, GuarantorIndex := 3, EscrowPubkey := "ESCROW" }

/-- A guarantor with a first-loss ceiling of 50. -/
def C7ent : Entity :=
  { index := 3, email := "g", firstLossGuaranteeAmt := 50,
    firstLossGuarantee := "pw", encryptedSeed := "es" }

/-- The ledger for the C7 scenario. -/
def C7db : DB :=
  { projects := [(1, C7proj)], investors := [], recipients := [], entities := [(3, C7ent)] }

/-- C7 witness: requesting 80 against a ceiling of 50 transfers at most
min(80, 50) = 50. -/
theorem C7_witness :
    (assetSendAmounts (CoverFirstLoss C7db ChainEnv.ok 1 3 80).2.2 = [] ∨
     assetSendAmounts (CoverFirstLoss C7db ChainEnv.ok 1 3 80).2.2
       = [min 80 C7ent.firstLossGuaranteeAmt]) ∧
    min (80 : ℚ) C7ent.firstLossGuaranteeAmt = 50 :=
  ⟨C7_cover_first_loss_clamped C7db ChainEnv.ok 1 3 80 C7ent rfl,
   by simp only [C7ent]; rw [min_eq_right (by norm_num)]⟩

/-! ### C6 -/

/-- The fan-out loop of `DistributePayments` attempts one escrow transfer
per map entry, whatever the chain answers for each attempt. -/
theorem escrowSendTargets_fanout (l : List (String × ℚ)) (ch : ChainEnv)
    (epk : String) (r : ℚ) :
    escrowSendTargets (l.map (fun e => Effect.escrowSend e.1 (e.2 * r)
        ((ch.sendFundsFromEscrow epk e.1 (e.2 * r)).isNone)))
      = l.map (fun e => (e.1, e.2 * r)) := by
  induction l with
  | nil => rfl
  | cons hd t ih =>
    simp only [List.map_cons]
    unfold escrowSendTargets at ih ⊢
    simp only [List.filterMap_cons]
    exact congrArg (List.cons (hd.1, hd.2 * r)) ih

/-- C6: with `EscrowLock` unset, `DistributePayments` attempts, for every
`(investorPublicKey, share)` entry of `InvestorMap` in order, an escrow
transfer of exactly share x rate x amount, where rate is the project
`InterestRate` when nonzero and 0.05 otherwise; the attempted transfers are
the same whatever the chain answers, so a failed transfer to one investor
never prevents the attempts to the remaining investors, and the call
reports success. -/
theorem C6_distribute_fanout (db : DB) (ch : ChainEnv) (recipientSeed escrowPubkey : String)
    (projIndex : Nat) (amount : ℚ) (p : Project)
    (hp : lookup db.projects projIndex = some p)
    (hlock : p.EscrowLock = false) :
    (DistributePayments db ch recipientSeed escrowPubkey projIndex amount).1 = none ∧
    escrowSendTargets (DistributePayments db ch recipientSeed escrowPubkey projIndex amount).2.2
      = p.InvestorMap.map (fun e =>
          (e.1, e.2 * (if p.InterestRate ≠ 0 then p.InterestRate else (1 : ℚ) / 20) * amount)) := by
  unfold DistributePayments
  rw [hp]
  simp only [Option.getD_some, hlock, Bool.false_eq_true, if_false]
  refine ⟨trivial, ?_⟩
  rw [escrowSendTargets_fanout]
  apply List.map_congr_left
  intro e he
  rw [mul_assoc]

/-- A project with two investors holding shares 1/2 and 1/4 and no explicit
interest rate, for the C6 scenario. -/
def C6proj : Project :=
  { Project.zero with
    Index := 1
    EscrowPubkey := "E"
    InvestorMap := [("A", 1 / 2), ("B", 1 / 4)] }

/-- The ledger for the C6 scenario. -/
def C6db : DB :=
  { projects := [(1, C6proj)], investors := [], recipients := [], entities := [] }

/-- A chain on which transfers to investor A fail and all others succeed. -/
def C6ch : ChainEnv :=
  { ChainEnv.ok with sendFundsFromEscrow := fun _ d _ =>
      if d = "A" then some "account unreachable" else none }

/-- C6 witness: both investors get an attempt of exactly share x 0.05 x 100
even though the transfer to investor A fails. -/
theorem C6_witness :
    (DistributePayments C6db C6ch "rs" "E" 1 100).1 = none ∧
    escrowSendTargets (DistributePayments C6db C6ch "rs" "E" 1 100).2.2
      = C6proj.InvestorMap.map (fun e =>
          (e.1, e.2 * (if C6proj.InterestRate ≠ 0 then C6proj.InterestRate else (1 : ℚ) / 20) * 100)) :=
  C6_distribute_fanout C6db C6ch "rs" "E" 1 100 C6proj rfl rfl

/-! ### Payback facts shared by C3 and C4 -/

/-- `DistributePayments` never writes to the ledger. -/
theorem DistributePayments_db (db : DB) (ch : ChainEnv) (rs epk : String)
    (i : Nat) (a : ℚ) : (DistributePayments db ch rs epk i a).2.1 = db := by
  unfold DistributePayments
  dsimp only
  split <;> rfl

/-- `paybackUpdate` leaves the project index unchanged. -/
theorem paybackUpdate_Index (p : Project) (pct amount : ℚ) (now : Int) :
    (paybackUpdate p pct amount now).Index = p.Index := by
  unfold paybackUpdate
  dsimp only
  split <;> dsimp only <;> split <;> rfl

/-- `paybackUpdate` leaves the investment model unchanged. -/
theorem paybackUpdate_InvestmentType (p : Project) (pct amount : ℚ) (now : Int) :
    (paybackUpdate p pct amount now).InvestmentType = p.InvestmentType := by
  unfold paybackUpdate
  dsimp only
  split <;> dsimp only <;> split <;> rfl

/-- `paybackUpdate` adds the chain-reported ownership fraction to
`OwnershipShift`, unconditionally (no saturation). -/
theorem paybackUpdate_OwnershipShift (p : Project) (pct amount : ℚ) (now : Int) :
    (paybackUpdate p pct amount now).OwnershipShift = p.OwnershipShift + pct := by
  unfold paybackUpdate
  dsimp only
  split <;> dsimp only <;> split <;> rfl

/-- `paybackUpdate` stamps `DateLastPaid` with the current time. -/
theorem paybackUpdate_DateLastPaid (p : Project) (pct amount : ℚ) (now : Int) :
    (paybackUpdate p pct amount now).DateLastPaid = now := by
  unfold paybackUpdate
  dsimp only
  split <;> dsimp only <;> split <;> rfl

/-- The balance, debt and stage outcomes of `paybackUpdate`, by case on the
two exact-equality checks of the source. -/
theorem paybackUpdate_main (p : Project) (pct amount : ℚ) (now : Int) :
    (p.OwnershipShift + pct = 1 →
      (paybackUpdate p pct amount now).BalLeft = 0 ∧
      (paybackUpdate p pct amount now).AmountOwed = 0) ∧
    (p.OwnershipShift + pct ≠ 1 →
      (paybackUpdate p pct amount now).BalLeft = p.BalLeft - (1 - pct) * amount ∧
      (paybackUpdate p pct amount now).AmountOwed = p.AmountOwed - amount) ∧
    (p.BalLeft - (1 - pct) * amount = 0 → (paybackUpdate p pct amount now).Stage = 9) ∧
    (p.BalLeft - (1 - pct) * amount ≠ 0 → (paybackUpdate p pct amount now).Stage = p.Stage) := by
  unfold paybackUpdate
  dsimp only
  by_cases h1 : p.BalLeft - (1 - pct) * amount = 0
  · rw [if_pos h1]
    dsimp only
    by_cases h2 : p.OwnershipShift + pct = 1
    · rw [if_pos h2]
      exact ⟨fun _ => ⟨rfl, rfl⟩, fun hc => absurd h2 hc, fun _ => rfl, fun hc => absurd h1 hc⟩
    · rw [if_neg h2]
      exact ⟨fun hc => absurd hc h2, fun _ => ⟨rfl, rfl⟩, fun _ => rfl, fun hc => absurd h1 hc⟩
  · rw [if_neg h1]
    dsimp only
    by_cases h2 : p.OwnershipShift + pct = 1
    · rw [if_pos h2]
      exact ⟨fun _ => ⟨rfl, rfl⟩, fun hc => absurd h2 hc, fun hc => absurd hc h1, fun _ => rfl⟩
    · rw [if_neg h2]
      exact ⟨fun hc => absurd hc h2, fun _ => ⟨rfl, rfl⟩, fun hc => absurd hc h1, fun _ => rfl⟩

/-- A successful `Payback` persists exactly `paybackUpdate` of the loaded
project (the subsequent distribution step writes nothing). -/
theorem Payback_saved (db : DB) (ch : ChainEnv) (recpIndex projIndex : Nat)
    (assetName recipientSeed : String) (amount pct : ℚ) (p : Project)
    (hp : lookup db.projects projIndex = some p)
    (hty : p.InvestmentType = "munibond")
    (hpct : ch.munibondPayback recpIndex projIndex amount = some pct)
    (hidx : p.Index = projIndex) :
    lookup (Payback db ch recpIndex projIndex assetName amount recipientSeed).2.1.projects
      projIndex = some (paybackUpdate p pct amount ch.now) := by
  unfold Payback
  rw [hp]
  dsimp only
  rw [if_neg (by rw [hty]; exact fun hh => hh rfl)]
  rw [hpct]
  dsimp only
  have hdb := DistributePayments_db (saveProject db (paybackUpdate p pct amount ch.now)).1
    ch recipientSeed (paybackUpdate p pct amount ch.now).EscrowPubkey projIndex amount
  rcases hDP : DistributePayments (saveProject db (paybackUpdate p pct amount ch.now)).1
      ch recipientSeed (paybackUpdate p pct amount ch.now).EscrowPubkey projIndex amount
    with ⟨derr, db2, dtr⟩
  rw [hDP] at hdb
  dsimp only at hdb
  cases derr <;> dsimp only <;> rw [hdb] <;> unfold saveProject <;> dsimp only <;>
    rw [show (paybackUpdate p pct amount ch.now).Index = projIndex from
      (paybackUpdate_Index p pct amount ch.now).trans hidx] <;>
    exact alistGet?_alistSet_self db.projects projIndex (paybackUpdate p pct amount ch.now)

/-! ### C3 -/

/-- C3: a successful `Payback` with payment `amount` and chain-reported
fraction `pct` persists a post-state in which `OwnershipShift` grew by
`pct`, `DateLastPaid` is the current time, `BalLeft` shrank by
`(1 - pct) * amount` and `AmountOwed` by `amount` (overridden to exactly 0
for both when the new `OwnershipShift` is exactly 1), and `Stage` becomes 9
exactly when the new `BalLeft` hits exactly 0. -/
theorem C3_payback_post_state (db : DB) (ch : ChainEnv) (recpIndex projIndex : Nat)
    (assetName recipientSeed : String) (amount pct : ℚ) (p : Project)
    (hp : lookup db.projects projIndex = some p)
    (hty : p.InvestmentType = "munibond")
    (hpct : ch.munibondPayback recpIndex projIndex amount = some pct)
    (hidx : p.Index = projIndex) :
    lookup (Payback db ch recpIndex projIndex assetName amount recipientSeed).2.1.projects
        projIndex = some (paybackUpdate p pct amount ch.now) ∧
    (paybackUpdate p pct amount ch.now).OwnershipShift = p.OwnershipShift + pct ∧
    (paybackUpdate p pct amount ch.now).DateLastPaid = ch.now ∧
    (p.OwnershipShift + pct ≠ 1 →
      (paybackUpdate p pct amount ch.now).BalLeft = p.BalLeft - (1 - pct) * amount ∧
      (paybackUpdate p pct amount ch.now).AmountOwed = p.AmountOwed - amount) ∧
    (p.OwnershipShift + pct = 1 →
      (paybackUpdate p pct amount ch.now).BalLeft = 0 ∧
      (paybackUpdate p pct amount ch.now).AmountOwed = 0) ∧
    (p.BalLeft - (1 - pct) * amount = 0 →
      (paybackUpdate p pct amount ch.now).Stage = 9) ∧
    (p.BalLeft - (1 - pct) * amount ≠ 0 →
      (paybackUpdate p pct amount ch.now).Stage = p.Stage) :=
  ⟨Payback_saved db ch recpIndex projIndex assetName recipientSeed amount pct p hp hty hpct hidx,
   paybackUpdate_OwnershipShift p pct amount ch.now,
   paybackUpdate_DateLastPaid p pct amount ch.now,
   (paybackUpdate_main p pct amount ch.now).2.1,
   (paybackUpdate_main p pct amount ch.now).1,
   (paybackUpdate_main p pct amount ch.now).2.2.1,
   (paybackUpdate_main p pct amount ch.now).2.2.2⟩

/-- The project paying back in the C3 scenario of the design document:
BalLeft 500, AmountOwed 300, OwnershipShift 1/10. -/
def paybackProj : Project :=
  { Project.zero with
    Index := 1
    Stage := 5
    TotalValue := 1000
    MoneyRaised := 1000
    BalLeft := 500
    AmountOwed := 300
    OwnershipShift := 1 / 10
    InvestmentType := "munibond"
    EscrowPubkey := "E"
    InvestorMap := [("I", 1 / 2)] }

/-- The ledger for the C3 scenario. -/
def paybackDB : DB :=
  { projects := [(1, paybackProj)], investors := [], recipients := [], entities := [] }

/-- C3 witness: paying 100 with pct 1/5 against the scenario project. -/
theorem C3_witness :
    lookup (Payback paybackDB ChainEnv.ok 2 1 "PB" 100 "rs").2.1.projects 1
        = some (paybackUpdate paybackProj (1 / 5) 100 ChainEnv.ok.now) ∧
    (paybackUpdate paybackProj (1 / 5) 100 ChainEnv.ok.now).OwnershipShift
        = paybackProj.OwnershipShift + 1 / 5 ∧
    (paybackUpdate paybackProj (1 / 5) 100 ChainEnv.ok.now).DateLastPaid = ChainEnv.ok.now ∧
    (paybackProj.OwnershipShift + 1 / 5 ≠ 1 →
      (paybackUpdate paybackProj (1 / 5) 100 ChainEnv.ok.now).BalLeft
          = paybackProj.BalLeft - (1 - 1 / 5) * 100 ∧
      (paybackUpdate paybackProj (1 / 5) 100 ChainEnv.ok.now).AmountOwed
          = paybackProj.AmountOwed - 100) ∧
    (paybackProj.OwnershipShift + 1 / 5 = 1 →
      (paybackUpdate paybackProj (1 / 5) 100 ChainEnv.ok.now).BalLeft = 0 ∧
      (paybackUpdate paybackProj (1 / 5) 100 ChainEnv.ok.now).AmountOwed = 0) ∧
    (paybackProj.BalLeft - (1 - 1 / 5) * 100 = 0 →
      (paybackUpdate paybackProj (1 / 5) 100 ChainEnv.ok.now).Stage = 9) ∧
    (paybackProj.BalLeft - (1 - 1 / 5) * 100 ≠ 0 →
      (paybackUpdate paybackProj (1 / 5) 100 ChainEnv.ok.now).Stage = paybackProj.Stage) :=
  C3_payback_post_state paybackDB ChainEnv.ok 2 1 "PB" "rs" 100 (1 / 5) paybackProj
    rfl rfl rfl rfl

/-! ### C4 -/

/-- C4 (amended): one `Payback` state update with a chain-reported fraction
in [0, 1], a nonnegative payment, and nonnegative balances never decreases
`OwnershipShift` and never increases `BalLeft` or `AmountOwed`; no
saturation at 1 is performed on `OwnershipShift`. -/
theorem C4_amended_monotone (p : Project) (pct amount : ℚ) (now : Int)
    (hpct0 : 0 ≤ pct) (hpct1 : pct ≤ 1) (hamt : 0 ≤ amount)
    (hbal : 0 ≤ p.BalLeft) (howed : 0 ≤ p.AmountOwed) :
    p.OwnershipShift ≤ (paybackUpdate p pct amount now).OwnershipShift ∧
    (paybackUpdate p pct amount now).BalLeft ≤ p.BalLeft ∧
    (paybackUpdate p pct amount now).AmountOwed ≤ p.AmountOwed := by
  have hmul : 0 ≤ (1 - pct) * amount := mul_nonneg (by linarith) hamt
  have hm := paybackUpdate_main p pct amount now
  refine ⟨by rw [paybackUpdate_OwnershipShift]; linarith, ?_, ?_⟩
  · by_cases h2 : p.OwnershipShift + pct = 1
    · rw [(hm.1 h2).1]; exact hbal
    · rw [(hm.2.1 h2).1]; linarith
  · by_cases h2 : p.OwnershipShift + pct = 1
    · rw [(hm.1 h2).2]; exact howed
    · rw [(hm.2.1 h2).2]; linarith

/-- C4 witness: the monotonicity facts at the C3 scenario values. -/
theorem C4_witness :
    paybackProj.OwnershipShift
        ≤ (paybackUpdate paybackProj (1 / 5) 100 100).OwnershipShift ∧
    (paybackUpdate paybackProj (1 / 5) 100 100).BalLeft ≤ paybackProj.BalLeft ∧
    (paybackUpdate paybackProj (1 / 5) 100 100).AmountOwed ≤ paybackProj.AmountOwed :=
  C4_amended_monotone paybackProj (1 / 5) 100 100 (by norm_num) (by norm_num) (by norm_num)
    (by norm_num [paybackProj]) (by norm_num [paybackProj])

/-- The project of the C4 counterexample: no ownership transferred yet. -/
def C4proj : Project :=
  { Project.zero with
    Index := 1
    TotalValue := 1000
    BalLeft := 500
    AmountOwed := 300
    OwnershipShift := 0
    InvestmentType := "munibond" }

/-- The ledger for the C4 counterexample. -/
def C4db : DB :=
  { projects := [(1, C4proj)], investors := [], recipients := [], entities := [] }

/-- A chain reporting an ownership fraction of 3/5 for every payback. -/
def C4ch : ChainEnv :=
  { ChainEnv.ok with munibondPayback := fun _ _ _ => some (3 / 5) }

/-- C4 (counterexample): two successive paybacks each converting the
fraction 3/5 leave `OwnershipShift` at 6/5 > 1: the code does not saturate
`OwnershipShift` at 1. -/
theorem C4_counterexample :
    ((lookup (Payback (Payback C4db C4ch 2 1 "PB" 10 "rs").2.1 C4ch 2 1 "PB" 10 "rs").2.1.projects
        1).map Project.OwnershipShift) = some (6 / 5) ∧ ¬ ((6 : ℚ) / 5 ≤ 1) := by
  have h1 := Payback_saved C4db C4ch 2 1 "PB" "rs" 10 (3 / 5) C4proj rfl rfl rfl rfl
  have hq1ty : (paybackUpdate C4proj (3 / 5) 10 C4ch.now).InvestmentType = "munibond" :=
    paybackUpdate_InvestmentType C4proj (3 / 5) 10 C4ch.now
  have hq1idx : (paybackUpdate C4proj (3 / 5) 10 C4ch.now).Index = 1 :=
    paybackUpdate_Index C4proj (3 / 5) 10 C4ch.now
  have h2 := Payback_saved (Payback C4db C4ch 2 1 "PB" 10 "rs").2.1 C4ch 2 1 "PB" "rs" 10 (3 / 5)
    (paybackUpdate C4proj (3 / 5) 10 C4ch.now) h1 hq1ty rfl hq1idx
  rw [h2]
  constructor
  · rw [Option.map_some']
    rw [paybackUpdate_OwnershipShift, paybackUpdate_OwnershipShift]
    norm_num [C4proj]
  · norm_num

/-! ### C2 -/

/-- When the recipient record is missing, the notification step emails the
platform admin, backs off, retries the lookup once, and surfaces the
failure. -/
theorem sendRecipientNotification_retry (db : DB) (p : Project)
    (hmiss : lookup db.recipients p.RecipientIndex = none) :
    sendRecipientNotification db p
      = (errNew "could not retrieve recipient",
         [Effect.recpNotFoundEmail p.Index p.RecipientIndex, Effect.sleepOneHour]) := by
  unfold sendRecipientNotification
  rw [hmiss]

/-- When an investment brings `MoneyRaised` exactly to `TotalValue` and the
recipient record exists, the update step persists a locked snapshot,
notifies the recipient, and spawns the escrow-release pipeline exactly once
in this call, whether or not the share recomputation afterwards succeeds. -/
theorem updateAfterInvestment_trigger (db : DB) (ch : ChainEnv) (p : Project)
    (invAmount : ℚ) (invIndex : Nat) (sf : Bool) (r : Recipient)
    (htrig : p.MoneyRaised + invAmount = p.TotalValue)
    (hr : lookup db.recipients p.RecipientIndex = some r) :
    countSpawns (updateAfterInvestment db ch p invAmount invIndex sf).2.2 = 1 ∧
    (∃ q, Effect.saveProject q ∈ (updateAfterInvestment db ch p invAmount invIndex sf).2.2 ∧
      q.Lock = true ∧ q.MoneyRaised = q.TotalValue) ∧
    Effect.unlockNotif p.Index r.email
      ∈ (updateAfterInvestment db ch p invAmount invIndex sf).2.2 := by
  unfold updateAfterInvestment fundingTrigger sendRecipientNotification saveProject
  cases sf <;>
  · simp only [Bool.false_eq_true, eq_self_iff_true, if_false, if_true]
    try dsimp only
    rw [if_pos htrig, hr]
    dsimp only
    generalize recomputeInvestorMap _ _ _ _ _ _ _ = res
    obtain ⟨rerr, m⟩ := res
    cases rerr <;>
    · simp only [List.cons_append, List.nil_append]
      refine ⟨by simp [countSpawns, List.countP_cons], ?_, by simp⟩
      exact ⟨_, List.mem_cons_of_mem _ (List.mem_cons_self _ _), rfl, htrig⟩

/-- C2 (amended): every accepted investment that leaves `MoneyRaised`
exactly equal to `TotalValue` fires the funding-complete trigger: it
persists the project with `Lock` set to true, notifies the recipient, and
spawns the escrow-release pipeline once for that call (with the bounded
retry on a missing recipient record: admin email, fixed backoff, one
retried lookup, then failure is surfaced). The trigger is per-call, not
once per project. -/
theorem C2_amended_trigger :
    (∀ (db : DB) (ch : ChainEnv) (p : Project) (invAmount : ℚ) (invIndex : Nat)
      (sf : Bool) (r : Recipient),
      p.MoneyRaised + invAmount = p.TotalValue →
      lookup db.recipients p.RecipientIndex = some r →
      countSpawns (updateAfterInvestment db ch p invAmount invIndex sf).2.2 = 1 ∧
      (∃ q, Effect.saveProject q ∈ (updateAfterInvestment db ch p invAmount invIndex sf).2.2 ∧
        q.Lock = true ∧ q.MoneyRaised = q.TotalValue) ∧
      Effect.unlockNotif p.Index r.email
        ∈ (updateAfterInvestment db ch p invAmount invIndex sf).2.2) ∧
    (∀ (db : DB) (p : Project),
      lookup db.recipients p.RecipientIndex = none →
      sendRecipientNotification db p
        = (errNew "could not retrieve recipient",
           [Effect.recpNotFoundEmail p.Index p.RecipientIndex, Effect.sleepOneHour])) :=
  ⟨updateAfterInvestment_trigger, sendRecipientNotification_retry⟩

/-- A fully fundable project at stage 4, for the C2 scenario. -/
def C2proj : Project :=
  { Project.zero with
    Index := 1
    Stage := 4
    TotalValue := 1000
    InvestmentType := "munibond"
    Chain := "stellar"
    InvestorAssetCode := "IA"
    RecipientIndex := 2 }

/-- The investor of the C2 scenario. -/
def C2inv : Investor := { index := 7, publicKey := "IPK", email := "ie", notification := false }

/-- The recipient of the C2 scenario. -/
def C2recp : Recipient := { index := 2, email := "re", publicKey := "RPK", encryptedSeed := "ES" }

/-- The ledger for the C2 scenario. -/
def C2db : DB :=
  { projects := [(1, C2proj)], investors := [(7, C2inv)],
    recipients := [(2, C2recp)], entities := [] }

/-- C2 witness: investing exactly the total value of the scenario project
fires the trigger once, and on a ledger with no recipient record the
notification step backs off, retries, and surfaces the failure. -/
theorem C2_witness :
    (countSpawns (updateAfterInvestment C2db ChainEnv.ok C2proj 1000 7 false).2.2 = 1 ∧
     (∃ q, Effect.saveProject q
          ∈ (updateAfterInvestment C2db ChainEnv.ok C2proj 1000 7 false).2.2 ∧
        q.Lock = true ∧ q.MoneyRaised = q.TotalValue) ∧
     Effect.unlockNotif C2proj.Index C2recp.email
        ∈ (updateAfterInvestment C2db ChainEnv.ok C2proj 1000 7 false).2.2) ∧
    sendRecipientNotification { projects := [], investors := [], recipients := [], entities := [] }
        C2proj
      = (errNew "could not retrieve recipient",
         [Effect.recpNotFoundEmail C2proj.Index C2proj.RecipientIndex, Effect.sleepOneHour]) :=
  ⟨C2_amended_trigger.1 C2db ChainEnv.ok C2proj 1000 7 false C2recp
      (by norm_num [C2proj, Project.zero]) rfl,
   C2_amended_trigger.2 _ C2proj rfl⟩

/-- C2 (counterexample): after the scenario project is fully funded by a
1000 investment (first trigger), a second accepted zero-amount investment
passes every precondition (0 does not exceed the remaining gap of 0) and
fires the trigger again: the escrow-release pipeline is spawned twice for
one project, refuting pipeline-starts-exactly-once. -/
theorem C2_counterexample :
    (Invest C2db ChainEnv.ok 1 7 1000 "s").1 = none ∧
    (Invest (Invest C2db ChainEnv.ok 1 7 1000 "s").2.1 ChainEnv.ok 1 7 0 "s").1 = none ∧
    countSpawns ((Invest C2db ChainEnv.ok 1 7 1000 "s").2.2
      ++ (Invest (Invest C2db ChainEnv.ok 1 7 1000 "s").2.1 ChainEnv.ok 1 7 0 "s").2.2) = 2 := by
  norm_num [Invest, preInvestmentCheck, SeedInvest, updateAfterInvestment, fundingTrigger,
    sendRecipientNotification, recomputeInvestorMap, saveProject, C2db, C2proj, C2inv, C2recp,
    ChainEnv.ok, countSpawns, wrap, errNew, alistGet?, alistSet, lookup, storeKV,
    List.find?, List.any, List.countP, List.countP.go, Project.zero,
    show ("IA" : String) ≠ "" from by decide,
    show (("IPK" : String) == "IPK") = true from by decide]

/-! ### C1 -/

/-- Whenever the requested amount strictly exceeds the remaining gap, the
pre-investment gate rejects before reaching any step that persists or
provisions anything: it returns an error, the unchanged ledger, and an
empty effect trace. -/
theorem preInvestmentCheck_over (db : DB) (ch : ChainEnv) (projIndex invIndex : Nat)
    (invAmount : ℚ) (seed : String) (p : Project)
    (hp : lookup db.projects projIndex = some p)
    (hover : p.TotalValue - p.MoneyRaised < invAmount) :
    ∃ e, preInvestmentCheck db ch projIndex invIndex invAmount seed = ((p, some e), db, []) := by
  unfold preInvestmentCheck
  rw [hp]
  try dsimp only
  cases hi : lookup db.investors invIndex with
  | none => exact ⟨_, rfl⟩
  | some investor =>
    try dsimp only
    cases hc : ch.canInvest investor.index invAmount with
    | false => exact ⟨_, rfl⟩
    | true =>
      try dsimp only [Bool.not_true]
      cases hk : ch.returnPubkey seed with
      | none => exact ⟨_, rfl⟩
      | some pubkey =>
        try dsimp only
        cases ha : ch.accountExists pubkey with
        | false => exact ⟨_, rfl⟩
        | true =>
          try dsimp only [Bool.not_true]
          rw [if_neg (by simp), if_pos hover]
          exact ⟨_, rfl⟩

/-- C1: a call to `Invest` or `SeedInvest` with an amount strictly greater
than `TotalValue - MoneyRaised` is rejected with an error; the ledger is
unchanged and the effect trace is empty, so nothing was mutated, persisted,
or transferred by the call. -/
theorem C1_over_investment_rejected (db : DB) (ch : ChainEnv) (projIndex invIndex : Nat)
    (invAmount : ℚ) (seed : String) (p : Project)
    (hp : lookup db.projects projIndex = some p)
    (hover : p.TotalValue - p.MoneyRaised < invAmount) :
    ((Invest db ch projIndex invIndex invAmount seed).1.isSome = true ∧
     (Invest db ch projIndex invIndex invAmount seed).2.1 = db ∧
     (Invest db ch projIndex invIndex invAmount seed).2.2 = []) ∧
    ((SeedInvest db ch projIndex invIndex invAmount seed).1.isSome = true ∧
     (SeedInvest db ch projIndex invIndex invAmount seed).2.1 = db ∧
     (SeedInvest db ch projIndex invIndex invAmount seed).2.2 = []) := by
  obtain ⟨e, he⟩ := preInvestmentCheck_over db ch projIndex invIndex invAmount seed p hp hover
  constructor
  · unfold Invest
    rw [he]
    exact ⟨rfl, rfl, rfl⟩
  · unfold SeedInvest
    rw [he]
    exact ⟨rfl, rfl, rfl⟩

/-- The project of the C1 scenario: 600 of 1000 raised, so the gap is 400. -/
def C1proj : Project :=
  { Project.zero with
    Index := 1
    Stage := 4
    TotalValue := 1000
    MoneyRaised := 600
    InvestmentType := "munibond"
    Chain := "stellar"
    InvestorAssetCode := "IA"
    RecipientIndex := 2 }

/-- The ledger for the C1 scenario. -/
def C1db : DB :=
  { projects := [(1, C1proj)], investors := [(7, C2inv)],
    recipients := [(2, C2recp)], entities := [] }

/-- C1 witness: a 500 bid against a remaining gap of 400 is rejected by
both entry points with no ledger change and no effects. -/
theorem C1_witness :
    (((Invest C1db ChainEnv.ok 1 7 500 "s").1.isSome = true ∧
      (Invest C1db ChainEnv.ok 1 7 500 "s").2.1 = C1db ∧
      (Invest C1db ChainEnv.ok 1 7 500 "s").2.2 = []) ∧
     ((SeedInvest C1db ChainEnv.ok 1 7 500 "s").1.isSome = true ∧
      (SeedInvest C1db ChainEnv.ok 1 7 500 "s").2.1 = C1db ∧
      (SeedInvest C1db ChainEnv.ok 1 7 500 "s").2.2 = [])) :=
  C1_over_investment_rejected C1db ChainEnv.ok 1 7 500 "s" C1proj rfl
    (by norm_num [C1proj, Project.zero])

/-! ### C5 -/

/-- C5 (amended): when the escrow-release pipeline proceeds for an unlocked
project, the amount transferred into escrow is exactly `TotalValue` (the
seed surplus is excluded from the escrow transfer, per the source comment),
while the persisted project is initialized with
`BalLeft = TotalValue + SeedMoneyRaised`, advanced to stage 5, and the
payback monitor is spawned. -/
theorem C5_amended_pipeline (db : DB) (ch : ChainEnv) (projIndex : Nat)
    (p : Project) (r : Recipient) (epk : String)
    (hp : lookup db.projects projIndex = some p)
    (hlock : p.Lock = false)
    (hr : lookup db.recipients p.RecipientIndex = some r)
    (hd : (ch.decryptSeed r.encryptedSeed p.LockPwd).isSome = true)
    (he : ch.initEscrow p.Index = some epk)
    (ht : ch.transferFundsToEscrow p.TotalValue = none)
    (hm : ch.munibondReceive = none) :
    (sendRecipientAssetsBody db ch projIndex).1 = none ∧
    escrowTransferAmounts (sendRecipientAssetsBody db ch projIndex).2.2 = [p.TotalValue] ∧
    (lookup (sendRecipientAssetsBody db ch projIndex).2.1.projects p.Index).map
        (fun q => (q.BalLeft, q.Stage))
      = some (p.TotalValue + p.SeedMoneyRaised, (5 : Int)) ∧
    Effect.spawnMonitor p.RecipientIndex p.Index ∈ (sendRecipientAssetsBody db ch projIndex).2.2 := by
  obtain ⟨s, hs⟩ := Option.isSome_iff_exists.mp hd
  unfold sendRecipientAssetsBody updateProjectAfterAcceptance saveProject
  rw [hp]
  dsimp only
  rw [hr]
  dsimp only
  rw [hs]
  dsimp only
  rw [he]
  dsimp only
  rw [ht]
  dsimp only
  rw [hm]
  dsimp only
  refine ⟨rfl, rfl, ?_, by simp⟩
  rw [lookup_storeKV_self]
  rfl

/-- The project of the C5 scenario: fully funded with a 100 seed surplus,
unlocked by the recipient. -/
def C5proj : Project :=
  { Project.zero with
    Index := 1
    Stage := 4
    TotalValue := 1000
    MoneyRaised := 1000
    SeedMoneyRaised := 100
    Lock := false
    LockPwd := "pwd"
    RecipientIndex := 2
    InvestmentType := "munibond"
    Metadata := "m" }

/-- The ledger for the C5 scenario. -/
def C5db : DB :=
  { projects := [(1, C5proj)], investors := [], recipients := [(2, C2recp)], entities := [] }

/-- C5 (counterexample): the pipeline on the scenario project transfers
exactly 1000 into escrow, not the full raised amount
TotalValue + SeedMoneyRaised = 1100 the claim states. -/
theorem C5_counterexample :
    C5proj.Lock = false ∧ C5proj.SeedMoneyRaised = 100 ∧
    escrowTransferAmounts (sendRecipientAssetsBody C5db ChainEnv.ok 1).2.2 = [1000] ∧
    C5proj.TotalValue + C5proj.SeedMoneyRaised = 1100 ∧ ((1000 : ℚ) ≠ 1100) :=
  ⟨rfl, rfl, rfl, by norm_num [C5proj, Project.zero], by norm_num⟩

/-- C5 witness: the amended pipeline facts at the C5 scenario. -/
theorem C5_witness :
    (sendRecipientAssetsBody C5db ChainEnv.ok 1).1 = none ∧
    escrowTransferAmounts (sendRecipientAssetsBody C5db ChainEnv.ok 1).2.2
      = [C5proj.TotalValue] ∧
    (lookup (sendRecipientAssetsBody C5db ChainEnv.ok 1).2.1.projects C5proj.Index).map
        (fun q => (q.BalLeft, q.Stage))
      = some (C5proj.TotalValue + C5proj.SeedMoneyRaised, (5 : Int)) ∧
    Effect.spawnMonitor C5proj.RecipientIndex C5proj.Index
      ∈ (sendRecipientAssetsBody C5db ChainEnv.ok 1).2.2 :=
  C5_amended_pipeline C5db ChainEnv.ok 1 C5proj C2recp "ESCROWPK"
    rfl rfl rfl rfl rfl rfl rfl

/-! ### C8 -/

/-- Reading a Go-map key right after writing it returns the written value. -/
theorem mapLookup_mapSet_self (m : List (String × ℚ)) (k : String) (v : ℚ) :
    mapLookup (mapSet m k v) k = some v := alistGet?_alistSet_self m k v

/-- Writing one Go-map key leaves every other key unchanged. -/
theorem mapLookup_mapSet_ne (m : List (String × ℚ)) (k k' : String) (v : ℚ)
    (h : ¬ k' = k) : mapLookup (mapSet m k v) k' = mapLookup m k' :=
  alistGet?_alistSet_ne m k k' v h

/-- The share-recomputation loop never aborts as long as every investor
record resolves (balance-query failures are replaced by zero balances). -/
theorem recomputeInvestorMap_ok (db : DB) (ch : ChainEnv) (iac sac : String) (tv : ℚ)
    (indices : List Nat) (acc : List (String × ℚ))
    (hlook : ∀ i ∈ indices, (lookup db.investors i).isSome = true) :
    (recomputeInvestorMap db ch iac sac tv indices acc).1 = none := by
  revert hlook
  induction indices generalizing acc with
  | nil => intro _; rfl
  | cons i rest ih =>
    intro hlook
    obtain ⟨inv, hinv⟩ := Option.isSome_iff_exists.mp (hlook i (List.mem_cons_self i rest))
    unfold recomputeInvestorMap
    rw [hinv]
    exact ih _ (fun j hj => hlook j (List.mem_cons_of_mem _ hj))

/-- An investor whose balance queries all fail ends the recomputation with
a recorded share of exactly zero. -/
theorem recomputeInvestorMap_fail_zero (db : DB) (ch : ChainEnv) (iac sac : String)
    (tv : ℚ) (indices : List Nat) (acc : List (String × ℚ)) (pk0 : String)
    (hlook : ∀ i ∈ indices, (lookup db.investors i).isSome = true)
    (hfail : ∀ code, ch.getAssetBalance pk0 code = none)
    (hstart : mapLookup acc pk0 = some 0 ∨
      ∃ i ∈ indices, ∃ inv, lookup db.investors i = some inv ∧ inv.publicKey = pk0) :
    mapLookup (recomputeInvestorMap db ch iac sac tv indices acc).2 pk0 = some 0 := by
  revert hlook hstart
  induction indices generalizing acc with
  | nil =>
    intro _ hstart
    rcases hstart with h | ⟨i, hi, _⟩
    · exact h
    · simp at hi
  | cons i rest ih =>
    intro hlook hstart
    obtain ⟨inv, hinv⟩ := Option.isSome_iff_exists.mp (hlook i (List.mem_cons_self i rest))
    unfold recomputeInvestorMap
    rw [hinv]
    dsimp only
    apply ih _ (fun j hj => hlook j (List.mem_cons_of_mem _ hj))
    by_cases hpk : inv.publicKey = pk0
    · left
      rw [hpk, hfail iac, hfail sac]
      have hz : ((none : Option ℚ).getD 0 + (none : Option ℚ).getD 0) / tv = 0 := by
        simp
      rw [hz]
      exact mapLookup_mapSet_self acc pk0 0
    · rcases hstart with h | ⟨j, hj, invj, hinvj, hpkj⟩
      · left
        rw [mapLookup_mapSet_ne acc inv.publicKey pk0 _ (fun hh => hpk hh.symm)]
        exact h
      · rcases List.mem_cons.mp hj with rfl | hjrest
        · rw [hinv] at hinvj
          injection hinvj with hh
          exact absurd (hh ▸ hpkj) hpk
        · right
          exact ⟨j, hjrest, invj, hinvj, hpkj⟩

/-- Two recomputation runs whose balance oracles agree away from one public
key produce the same recorded share at every other key. -/
theorem recomputeInvestorMap_agree (db : DB) (ch1 ch2 : ChainEnv) (iac sac : String)
    (tv : ℚ) (indices : List Nat) (acc1 acc2 : List (String × ℚ)) (pk0 : String)
    (hlook : ∀ i ∈ indices, (lookup db.investors i).isSome = true)
    (hagree : ∀ pk code, ¬ pk = pk0 →
      ch1.getAssetBalance pk code = ch2.getAssetBalance pk code)
    (hacc : ∀ pk, ¬ pk = pk0 → mapLookup acc1 pk = mapLookup acc2 pk) :
    ∀ pk, ¬ pk = pk0 →
      mapLookup (recomputeInvestorMap db ch1 iac sac tv indices acc1).2 pk
        = mapLookup (recomputeInvestorMap db ch2 iac sac tv indices acc2).2 pk := by
  revert hlook hacc
  induction indices generalizing acc1 acc2 with
  | nil => intro _ hacc pk hpk; exact hacc pk hpk
  | cons i rest ih =>
    intro hlook hacc pk hpk
    obtain ⟨inv, hinv⟩ := Option.isSome_iff_exists.mp (hlook i (List.mem_cons_self i rest))
    unfold recomputeInvestorMap
    rw [hinv]
    dsimp only
    refine ih _ _ (fun j hj => hlook j (List.mem_cons_of_mem _ hj)) ?_ pk hpk
    intro pk2 hpk2
    by_cases hkey : pk2 = inv.publicKey
    · subst hkey
      rw [mapLookup_mapSet_self, mapLookup_mapSet_self,
        hagree _ iac hpk2, hagree _ sac hpk2]
    · rw [mapLookup_mapSet_ne _ _ _ _ hkey, mapLookup_mapSet_ne _ _ _ _ hkey]
      exact hacc pk2 hpk2

/-- C8: during the InvestorMap recomputation, an investor whose balance
queries fail gets a recorded share of exactly zero, the loop is not
aborted, and every other investor's recorded share is the same as in a run
in which those queries succeed. The positivity hypothesis on `TotalValue`
mirrors the Go division `balance / TotalValue`, which is well defined only
for a nonzero raise target. -/
theorem C8_balance_failure_isolated (db : DB) (ch1 ch2 : ChainEnv) (iac sac : String)
    (tv : ℚ) (indices : List Nat) (acc : List (String × ℚ)) (pk0 : String)
    (hlook : ∀ i ∈ indices, (lookup db.investors i).isSome = true)
    (hfail : ∀ code, ch1.getAssetBalance pk0 code = none)
    (hagree : ∀ pk code, ¬ pk = pk0 →
      ch1.getAssetBalance pk code = ch2.getAssetBalance pk code)
    (hmem : ∃ i ∈ indices, ∃ inv, lookup db.investors i = some inv ∧ inv.publicKey = pk0)
    (htv : 0 < tv) :
    (recomputeInvestorMap db ch1 iac sac tv indices acc).1 = none ∧
    mapLookup (recomputeInvestorMap db ch1 iac sac tv indices acc).2 pk0 = some 0 ∧
    ∀ pk, ¬ pk = pk0 →
      mapLookup (recomputeInvestorMap db ch1 iac sac tv indices acc).2 pk
        = mapLookup (recomputeInvestorMap db ch2 iac sac tv indices acc).2 pk :=
  ⟨recomputeInvestorMap_ok db ch1 iac sac tv indices acc hlook,
   recomputeInvestorMap_fail_zero db ch1 iac sac tv indices acc pk0 hlook hfail (Or.inr hmem),
   recomputeInvestorMap_agree db ch1 ch2 iac sac tv indices acc acc pk0 hlook hagree
     (fun _ _ => rfl)⟩

/-- Investor A of the C8 scenario. -/
def C8invA : Investor := { index := 7, publicKey := "A", email := "a", notification := false }

/-- Investor B of the C8 scenario. -/
def C8invB : Investor := { index := 8, publicKey := "B", email := "b", notification := false }

/-- The ledger for the C8 scenario. -/
def C8db : DB :=
  { projects := [], investors := [(7, C8invA), (8, C8invB)], recipients := [], entities := [] }

/-- A chain on which every balance query for investor A fails. -/
def C8ch1 : ChainEnv :=
  { ChainEnv.ok with getAssetBalance := fun pk _ => if pk = "A" then none else some 100 }

/-- The same chain except that the queries for investor A succeed. -/
def C8ch2 : ChainEnv :=
  { ChainEnv.ok with getAssetBalance := fun pk _ => if pk = "A" then some 40 else some 100 }

/-- C8 witness: with A's queries failing, the loop completes, records share
0 for A, and records for B the same share as the run in which A's queries
succeed. -/
theorem C8_witness :
    (recomputeInvestorMap C8db C8ch1 "IA" "SA" 1000 [7, 8] []).1 = none ∧
    mapLookup (recomputeInvestorMap C8db C8ch1 "IA" "SA" 1000 [7, 8] []).2 "A" = some 0 ∧
    mapLookup (recomputeInvestorMap C8db C8ch1 "IA" "SA" 1000 [7, 8] []).2 "B"
      = mapLookup (recomputeInvestorMap C8db C8ch2 "IA" "SA" 1000 [7, 8] []).2 "B" := by
  have h := C8_balance_failure_isolated C8db C8ch1 C8ch2 "IA" "SA" 1000 [7, 8] [] "A"
    (by decide)
    (fun code => by simp [C8ch1])
    (fun pk code hpk => by simp [C8ch1, C8ch2, hpk])
    ⟨7, by decide, C8invA, rfl, rfl⟩
    (by norm_num)
  exact ⟨h.1, h.2.1, h.2.2 "B" (by decide)⟩

end OpenSolar
